import Mathlib

/-!
Shallow embedding of the panop terraform provider's resource-lifecycle core
(zone and asset reconcilers, zone and asset listers, import-by-id), translated
from `internal/provider/resource_zone.go`, `internal/provider/data_source_zone.go`
and the asset resource / asset data source files.

Modelling conventions:
- Each handler is a pure function of the HTTP response it received: the
  status code (a `Nat`) and the decode result of the body.  Go's pattern
  `x := Zero{}; _ = json.Unmarshal(body, &x)` is modelled by an
  `Option`-valued decode result consumed with `Option.getD zero`: `none`
  means the body did not parse and the zero value is used.
- A handler that calls `resp.Diagnostics.AddError` and returns without
  setting state is modelled as returning `none`; a successful handler
  returns `some` of the state it writes.
- Outbound request bodies are modelled as association lists of JSON fields,
  in Go struct-field (hence marshal) order, so that claims about payload
  contents are statable.
- Go `int64(u)` conversion of an unsigned 64-bit value is `int64OfUint64`.
-/

namespace Panop

/-- Minimal JSON value type for modelling serialized request bodies. -/
inductive JsonVal where
  | str : String → JsonVal
  | num : Int → JsonVal
deriving DecidableEq

/-- An outbound HTTP request built by a reconciler: method, path and the
serialized JSON body (field list in marshal order), when a body is sent. -/
structure Request where
  method : String
  path : String
  body : Option (List (String × JsonVal))
deriving DecidableEq

/-- Go conversion `int64(u)` for an unsigned 64-bit value `u`. -/
def int64OfUint64 (n : Nat) : Int :=
  if n < 2 ^ 63 then (n : Int) else (n : Int) - 2 ^ 64

/-- `ZoneResourceModel` from resource_zone.go: zone_name, id, zone_type, token.
Field accesses in the handlers go through ValueString/ValueInt64, so the
fields are modelled as plain values. -/
structure ZoneResourceModel where
  zoneName : String
  id : Int
  zoneType : String
  token : String
deriving DecidableEq

/-- The `ZoneResponse` struct local to `PanopZoneResource.Create`
(zone_id, zone_name, zone_type, validated, token); defaults are Go zero
values, used when the body fails to unmarshal. -/
structure ZoneCreateResponse where
  zoneId : Nat := 0
  zoneName : String := ""
  zoneType : String := ""
  validated : Bool := false
  token : String := ""
deriving DecidableEq

/-- The POST request built by `PanopZoneResource.Create`: the `ZoneInput`
struct has fields ZoneName then TenantId, and TenantId is never set (stays 0),
so the marshalled body is exactly zone_name followed by tenant_id. -/
def zoneCreateRequest (data : ZoneResourceModel) : Request :=
  { method := "POST", path := "/api/zones",
    body := some [("zone_name", JsonVal.str data.zoneName),
                  ("tenant_id", JsonVal.num 0)] }

/-- `PanopZoneResource.Create` response handling: non-201 status adds an error
and returns without setting state; on 201 the body is unmarshalled (failure
ignored, zero value kept) and only Token and Id are written into the model. -/
def zoneCreate (data : ZoneResourceModel) (status : Nat)
    (decoded : Option ZoneCreateResponse) : Option ZoneResourceModel :=
  if status ≠ 201 then none
  else
    let zone := decoded.getD {}
    some { data with token := zone.token, id := int64OfUint64 zone.zoneId }

/-- The `ZoneResponse` struct local to `PanopZoneResource.Read`
(id, zone_name, zone_type, validated, token, tenant_id). -/
structure ZoneReadResponse where
  id : Int
  zoneName : String
  zoneType : String
  validated : Bool
  token : String
  tenantId : Nat
deriving DecidableEq

/-- The linear scan in `PanopZoneResource.Read`: first entry whose id matches
overwrites ZoneName, Token, ZoneType and the loop breaks; no match leaves the
model unchanged. -/
def zoneReadScan (data : ZoneResourceModel) :
    List ZoneReadResponse → ZoneResourceModel
  | [] => data
  | zone :: rest =>
    if zone.id = data.id then
      { data with zoneName := zone.zoneName, token := zone.token,
                  zoneType := zone.zoneType }
    else zoneReadScan data rest

/-- `PanopZoneResource.Read` response handling: non-200 adds an error and
returns; on 200 the body is unmarshalled into a slice (failure ignored,
empty slice kept) and the scan runs. -/
def zoneRead (data : ZoneResourceModel) (status : Nat)
    (decoded : Option (List ZoneReadResponse)) : Option ZoneResourceModel :=
  if status ≠ 200 then none
  else some (zoneReadScan data (decoded.getD []))

/-- Modelled from the terraform-plugin-framework contract behind `Plan.Get`:
reflection-based conversion of a plan object into a tagged struct succeeds
exactly when the struct's tfsdk tags and the schema's attribute names coincide
as sets; any mismatch yields a Value Conversion Error diagnostic. -/
def planGetCompatible (structTags schemaAttrs : List String) : Bool :=
  structTags.all schemaAttrs.contains && schemaAttrs.all structTags.contains

/-- The tfsdk tags of `ZoneResourceModel`, in struct field order. -/
def zoneResourceModelTags : List String :=
  ["zone_name", "id", "zone_type", "token"]

/-- The attribute names of the zone resource schema. -/
def zoneResourceSchemaAttrs : List String :=
  ["id", "zone_name", "zone_type", "token"]

/-- The attribute names of the asset resource schema. -/
def assetResourceSchemaAttrs : List String :=
  ["asset_name", "id", "zone_id"]

/-- `PanopZoneResource.Update`: reads the plan into `ZoneResourceModel` (whose
tags match the zone schema, so `Plan.Get` succeeds) and writes it back to
state; no HTTP request is built (the client call is commented out in the
source).  The second component is the persisted state, `none` when the plan
read errors. -/
def zoneUpdate (data : ZoneResourceModel) :
    List Request × Option ZoneResourceModel :=
  if planGetCompatible zoneResourceModelTags zoneResourceSchemaAttrs then
    ([], some data)
  else ([], none)

/-- `PanopZoneResource.Delete` response handling: any non-200 status adds an
error diagnostic (`none`); 200 succeeds. -/
def zoneDelete (status : Nat) : Option Unit :=
  if status ≠ 200 then none else some ()

/-- `AssetResourceModel` from the asset resource file: asset_name, id, zone_id. -/
structure AssetResourceModel where
  assetName : String
  id : Int
  zoneId : Int
deriving DecidableEq

/-- The POST request built by `PanopAssetResource.Create`: `AssetInput` has
fields AssetName then ZoneId, both copied from the plan. -/
def assetCreateRequest (data : AssetResourceModel) : Request :=
  { method := "POST", path := "/api/assets",
    body := some [("asset_name", JsonVal.str data.assetName),
                  ("zone_id", JsonVal.num data.zoneId)] }

/-- The `AssetResponse` struct local to `PanopAssetResource.Create`
(asset_id, asset_name); defaults are Go zero values. -/
structure AssetCreateResponse where
  assetId : Nat := 0
  assetName : String := ""
deriving DecidableEq

/-- `PanopAssetResource.Create` response handling: non-201 adds an error and
returns; on 201 the body is unmarshalled (failure ignored, zero value kept)
and AssetName and Id are written from it; ZoneId is left as planned. -/
def assetCreate (data : AssetResourceModel) (status : Nat)
    (decoded : Option AssetCreateResponse) : Option AssetResourceModel :=
  if status ≠ 201 then none
  else
    let zone := decoded.getD {}
    some { data with assetName := zone.assetName, id := int64OfUint64 zone.assetId }

/-- The `AssetResponse` struct shared in shape by `PanopAssetResource.Read`
and `PanopAssetDataSource.Read` (id, asset_name, zone_id). -/
structure AssetReadResponse where
  assetId : Int
  assetName : String
  zoneId : Int
deriving DecidableEq

/-- The linear scan in `PanopAssetResource.Read`: first entry whose id matches
overwrites AssetName and ZoneId and the loop breaks. -/
def assetReadScan (data : AssetResourceModel) :
    List AssetReadResponse → AssetResourceModel
  | [] => data
  | asset :: rest =>
    if asset.assetId = data.id then
      { data with assetName := asset.assetName, zoneId := asset.zoneId }
    else assetReadScan data rest

/-- `PanopAssetResource.Read` response handling. -/
def assetRead (data : AssetResourceModel) (status : Nat)
    (decoded : Option (List AssetReadResponse)) : Option AssetResourceModel :=
  if status ≠ 200 then none
  else some (assetReadScan data (decoded.getD []))

/-- `PanopAssetResource.Update`: the source declares `var data ZoneResourceModel`
(the zone model) and reads the asset plan into it; the zone model's tags
cannot match the asset schema's attributes, so `Plan.Get` returns a conversion
error on every invocation and the handler returns before `resp.State.Set`:
nothing is persisted, and no HTTP request is built on any path.  The parameter
is the model the success branch would persist; that branch is unreachable. -/
def assetUpdate (data : ZoneResourceModel) :
    List Request × Option ZoneResourceModel :=
  if planGetCompatible zoneResourceModelTags assetResourceSchemaAttrs then
    ([], some data)
  else ([], none)

/-- `PanopAssetResource.Delete` response handling: any non-200 status adds an
error diagnostic (`none`); 200 succeeds. -/
def assetDelete (status : Nat) : Option Unit :=
  if status ≠ 200 then none else some ()

/-- `ZoneModel` of the zone data source (zone_name, tenant_id, id, zone_type,
token). -/
structure ZoneModel where
  zoneName : String
  tenantId : Int
  id : Int
  zoneType : String
  token : String
deriving DecidableEq

/-- The `ZoneResponse` struct local to `PanopZoneDataSource.Read`
(id as uint, zone_name, zone_type, validated, token, tenant_id as uint). -/
structure ZoneListResponse where
  id : Nat
  zoneName : String
  zoneType : String
  validated : Bool
  token : String
  tenantId : Nat
deriving DecidableEq

/-- The per-entry conversion in the zone lister's loop body. -/
def zoneModelOfResponse (zone : ZoneListResponse) : ZoneModel :=
  { zoneName := zone.zoneName, tenantId := int64OfUint64 zone.tenantId,
    id := int64OfUint64 zone.id, zoneType := zone.zoneType, token := zone.token }

/-- `PanopZoneDataSource.Read` response handling: non-200 adds an error;
on 200 every decoded entry is appended, in order, with no filter. -/
def zoneListerRead (status : Nat) (decoded : Option (List ZoneListResponse)) :
    Option (List ZoneModel) :=
  if status ≠ 200 then none
  else some ((decoded.getD []).map zoneModelOfResponse)

/-- `AssetDataSourceModel` of the asset data source (id, asset_name, zone_id). -/
structure AssetDataSourceModel where
  assetId : Int
  assetName : String
  zoneId : Int
deriving DecidableEq

/-- The per-entry conversion in the asset lister's loop body. -/
def assetModelOfResponse (asset : AssetReadResponse) : AssetDataSourceModel :=
  { assetName := asset.assetName, assetId := asset.assetId, zoneId := asset.zoneId }

/-- The append loop of `PanopAssetDataSource.Read`: an entry is kept when its
zone_id equals the configured filter value, or when the filter attribute is
null (`assetModel.ZoneId == data.ZoneId || data.ZoneId.IsNull()`); the filter
is `Option Int`, `none` standing for a null attribute. -/
def assetListerScan (filterZoneId : Option Int) :
    List AssetReadResponse → List AssetDataSourceModel
  | [] => []
  | asset :: rest =>
    let assetModel := assetModelOfResponse asset
    if some assetModel.zoneId = filterZoneId ∨ filterZoneId = none then
      assetModel :: assetListerScan filterZoneId rest
    else assetListerScan filterZoneId rest

/-- `PanopAssetDataSource.Read` response handling. -/
def assetListerRead (filterZoneId : Option Int) (status : Nat)
    (decoded : Option (List AssetReadResponse)) :
    Option (List AssetDataSourceModel) :=
  if status ≠ 200 then none
  else some (assetListerScan filterZoneId (decoded.getD []))

/-- Base-10 digit-string validity as in Go's strconv for base 10: at least one
character, all in 0-9. -/
def goDecimalDigits (cs : List Char) : Bool :=
  !cs.isEmpty && cs.all Char.isDigit

/-- Sign handling of Go's `strconv.ParseInt`: a leading + or - is consumed. -/
def goSignSplit (cs : List Char) : Bool × List Char :=
  match cs with
  | '+' :: rest => (false, rest)
  | '-' :: rest => (true, rest)
  | cs => (false, cs)

/-- Whether a string is a syntactically valid signed base-10 integer for
`strconv.ParseInt(s, 10, 64)`. -/
def goDecimalSyntax (s : String) : Bool :=
  goDecimalDigits (goSignSplit s.data).2

/-- Accumulate a base-10 digit list into a Nat. -/
def digitsToNat (cs : List Char) : Nat :=
  cs.foldl (fun acc c => acc * 10 + (c.toNat - 48)) 0

/-- The value returned by Go's `strconv.ParseInt(s, 10, 64)` when the error is
discarded: 0 on a syntax error, the clamped boundary on a range error, the
parsed value otherwise. -/
def goParseInt64 (s : String) : Int :=
  let neg := (goSignSplit s.data).1
  let digits := (goSignSplit s.data).2
  if goDecimalDigits digits then
    let n := digitsToNat digits
    if neg then
      if n ≤ 2 ^ 63 then -(n : Int) else -(2 ^ 63 : Int)
    else
      if n < 2 ^ 63 then (n : Int) else (2 ^ 63 : Int) - 1
  else 0

/-- `PanopZoneResource.ImportState`: `strconv.ParseInt(req.ID, 10, 64)` with
the error discarded seeds the state's id attribute. -/
def zoneImportState (reqId : String) : Int :=
  goParseInt64 reqId

/-- `PanopAssetResource.ImportState`: identical to the zone import. -/
def assetImportState (reqId : String) : Int :=
  goParseInt64 reqId

/-- Plan used by the C3 counterexample: the caller declared zone_type "dns". -/
def c3Plan : ZoneResourceModel :=
  { zoneName := "example.com", id := 0, zoneType := "dns", token := "" }

/-- Response used by the C3 counterexample: the server observed zone_type "web". -/
def c3Resp : ZoneCreateResponse :=
  { zoneId := 5, zoneName := "example.com", zoneType := "web",
    validated := false, token := "tok" }

/-- Helper: with a concrete filter value, the lister scan keeps exactly the
entries whose zone_id equals it, in order. -/
theorem assetListerScan_some_eq (z : Int) (assets : List AssetReadResponse) :
    assetListerScan (some z) assets
      = (assets.filter fun a => a.zoneId == z).map assetModelOfResponse := by
  induction assets with
  | nil => rfl
  | cons a rest ih =>
    by_cases h : a.zoneId = z
    · simp [assetListerScan, List.filter_cons, h, ih, assetModelOfResponse]
    · simp [assetListerScan, List.filter_cons, h, ih, assetModelOfResponse]

/-- Helper: with a null filter, the lister scan keeps every entry, in order. -/
theorem assetListerScan_none_eq (assets : List AssetReadResponse) :
    assetListerScan none assets = assets.map assetModelOfResponse := by
  induction assets with
  | nil => rfl
  | cons a rest ih => simp [assetListerScan, ih]

/-- Helper: the zone read scan leaves the model unchanged when no entry's id
matches. -/
theorem zoneReadScan_no_match (data : ZoneResourceModel)
    (zones : List ZoneReadResponse) (h : ∀ z ∈ zones, z.id ≠ data.id) :
    zoneReadScan data zones = data := by
  induction zones with
  | nil => rfl
  | cons z rest ih =>
    have hz : z.id ≠ data.id := h z (by simp)
    simp only [zoneReadScan, if_neg hz]
    exact ih fun w hw => h w (by simp [hw])

/-- Helper: the zone read scan overwrites from the first matching entry. -/
theorem zoneReadScan_first_match (data : ZoneResourceModel)
    (pre : List ZoneReadResponse) (z : ZoneReadResponse)
    (rest : List ZoneReadResponse)
    (hpre : ∀ y ∈ pre, y.id ≠ data.id) (hz : z.id = data.id) :
    zoneReadScan data (pre ++ z :: rest)
      = { data with zoneName := z.zoneName, token := z.token,
                    zoneType := z.zoneType } := by
  induction pre with
  | nil => simp [zoneReadScan, hz]
  | cons y ys ih =>
    have hy : y.id ≠ data.id := hpre y (by simp)
    simp only [List.cons_append, zoneReadScan, if_neg hy]
    exact ih fun w hw => hpre w (by simp [hw])

/-- Helper: the asset read scan leaves the model unchanged when no entry's id
matches. -/
theorem assetReadScan_no_match (data : AssetResourceModel)
    (assets : List AssetReadResponse) (h : ∀ a ∈ assets, a.assetId ≠ data.id) :
    assetReadScan data assets = data := by
  induction assets with
  | nil => rfl
  | cons a rest ih =>
    have ha : a.assetId ≠ data.id := h a (by simp)
    simp only [assetReadScan, if_neg ha]
    exact ih fun w hw => h w (by simp [hw])

/-- Helper: the asset read scan overwrites from the first matching entry. -/
theorem assetReadScan_first_match (data : AssetResourceModel)
    (pre : List AssetReadResponse) (a : AssetReadResponse)
    (rest : List AssetReadResponse)
    (hpre : ∀ y ∈ pre, y.assetId ≠ data.id) (ha : a.assetId = data.id) :
    assetReadScan data (pre ++ a :: rest)
      = { data with assetName := a.assetName, zoneId := a.zoneId } := by
  induction pre with
  | nil => simp [assetReadScan, ha]
  | cons y ys ih =>
    have hy : y.assetId ≠ data.id := hpre y (by simp)
    simp only [List.cons_append, assetReadScan, if_neg hy]
    exact ih fun w hw => hpre w (by simp [hw])

/-- Claim C1: for every decoded asset collection, the Asset Lister on HTTP 200
returns exactly the records whose zone_id equals the filter value when a
filter is supplied, and every record when the filter is null, in the order
the remote service returned them. -/
theorem c1_asset_lister_filter (z : Int) (assets : List AssetReadResponse) :
    assetListerRead (some z) 200 (some assets)
      = some ((assets.filter fun a => a.zoneId == z).map assetModelOfResponse)
    ∧ assetListerRead none 200 (some assets)
      = some (assets.map assetModelOfResponse) := by
  refine ⟨?_, ?_⟩ <;>
    simp [assetListerRead, assetListerScan_some_eq, assetListerScan_none_eq]

/-- Claim C5: a Read (zone or asset) answered with HTTP 200 whose decoded
collection has no entry matching the held id returns no error and leaves the
record unchanged; when a matching entry exists, the zone's name, token and
type (the asset's name and zone_id) are overwritten from the first match. -/
theorem c5_read_frame :
    (∀ (data : ZoneResourceModel) (zones : List ZoneReadResponse),
        (∀ z ∈ zones, z.id ≠ data.id) →
        zoneRead data 200 (some zones) = some data)
    ∧ (∀ (data : ZoneResourceModel) (pre : List ZoneReadResponse)
          (z : ZoneReadResponse) (rest : List ZoneReadResponse),
        (∀ y ∈ pre, y.id ≠ data.id) → z.id = data.id →
        zoneRead data 200 (some (pre ++ z :: rest))
          = some { data with zoneName := z.zoneName, token := z.token,
                             zoneType := z.zoneType })
    ∧ (∀ (data : AssetResourceModel) (assets : List AssetReadResponse),
        (∀ a ∈ assets, a.assetId ≠ data.id) →
        assetRead data 200 (some assets) = some data)
    ∧ (∀ (data : AssetResourceModel) (pre : List AssetReadResponse)
          (a : AssetReadResponse) (rest : List AssetReadResponse),
        (∀ y ∈ pre, y.assetId ≠ data.id) → a.assetId = data.id →
        assetRead data 200 (some (pre ++ a :: rest))
          = some { data with assetName := a.assetName, zoneId := a.zoneId }) := by
  refine ⟨fun data zones h => ?_, fun data pre z rest hpre hz => ?_,
          fun data assets h => ?_, fun data pre a rest hpre ha => ?_⟩
  · simp [zoneRead, zoneReadScan_no_match data zones h]
  · simp [zoneRead, zoneReadScan_first_match data pre z rest hpre hz]
  · simp [assetRead, assetReadScan_no_match data assets h]
  · simp [assetRead, assetReadScan_first_match data pre a rest hpre ha]

/-- Witness for C5 at concrete inputs: a collection with no matching id leaves
the record unchanged, and a first match overwrites the refreshed fields. -/
theorem c5_read_frame_witness :
    zoneRead ⟨"a.com", 1, "dns", "t"⟩ 200 (some [⟨2, "b.com", "dns", false, "u", 0⟩])
      = some ⟨"a.com", 1, "dns", "t"⟩
    ∧ assetRead ⟨"www", 7, 3⟩ 200
        (some [⟨9, "mail", 4⟩, ⟨7, "smtp", 5⟩])
      = some ⟨"smtp", 7, 5⟩ :=
  ⟨c5_read_frame.1 ⟨"a.com", 1, "dns", "t"⟩ [⟨2, "b.com", "dns", false, "u", 0⟩]
      (by decide),
   c5_read_frame.2.2.2 ⟨"www", 7, 3⟩ [⟨9, "mail", 4⟩] ⟨7, "smtp", 5⟩ []
      (by decide) (by decide)⟩

/-- Claim C9: a read or list answered with HTTP 200 whose body does not decode
returns no error and proceeds with the zero-valued (empty) collection: the
resource reads leave the record unchanged and the listers return an empty
list. -/
theorem c9_decode_failure_ignored (data : ZoneResourceModel)
    (adata : AssetResourceModel) (filterZoneId : Option Int) :
    zoneRead data 200 none = some data
    ∧ assetRead adata 200 none = some adata
    ∧ zoneListerRead 200 none = some []
    ∧ assetListerRead filterZoneId 200 none = some [] := by
  refine ⟨?_, ?_, rfl, ?_⟩ <;>
    simp [zoneRead, assetRead, assetListerRead, zoneReadScan, assetReadScan,
          assetListerScan]

/-- Claim C2: every response status other than the documented success code
makes Create (success 201) return a fatal error with the identifier
unpopulated (no state is written) and makes Delete (success 200) return a
fatal error; in particular a Delete answered with HTTP 404 errors rather than
silently succeeding. -/
theorem c2_status_gating :
    (∀ (data : ZoneResourceModel) (status : Nat)
        (decoded : Option ZoneCreateResponse),
        status ≠ 201 → zoneCreate data status decoded = none)
    ∧ (∀ (data : AssetResourceModel) (status : Nat)
        (decoded : Option AssetCreateResponse),
        status ≠ 201 → assetCreate data status decoded = none)
    ∧ (∀ status : Nat, status ≠ 200 →
        zoneDelete status = none ∧ assetDelete status = none)
    ∧ zoneDelete 404 = none ∧ assetDelete 404 = none := by
  refine ⟨fun data status decoded h => ?_, fun data status decoded h => ?_,
          fun status h => ⟨?_, ?_⟩, rfl, rfl⟩ <;>
    simp [zoneCreate, assetCreate, zoneDelete, assetDelete, h]

/-- Witness for C2 at concrete inputs: a Create answered with HTTP 500 writes
no state, and a Delete answered with HTTP 404 errors. -/
theorem c2_status_gating_witness :
    zoneCreate ⟨"a.com", 0, "dns", ""⟩ 500 (some {}) = none
    ∧ zoneDelete 404 = none :=
  ⟨c2_status_gating.1 ⟨"a.com", 0, "dns", ""⟩ 500 (some {}) (by decide),
   c2_status_gating.2.2.2.1⟩

/-- Counterexample to claim C3 as stated: a Zone Create answered with HTTP 201
whose response carries zone_type "web" yields a record whose zone_type is the
caller's "dns", not the response's zone_type. -/
theorem c3_counterexample :
    (zoneCreate c3Plan 201 (some c3Resp)).map ZoneResourceModel.zoneType
      ≠ some c3Resp.zoneType := by
  decide

/-- Claim C3 as amended: on HTTP 201 the resulting record has id and token
taken from the response body, and every other field (zone_name and zone_type)
retains the caller's desired value; the response's zone_type is ignored. -/
theorem c3_create_field_mapping (data : ZoneResourceModel)
    (resp : ZoneCreateResponse) :
    zoneCreate data 201 (some resp)
      = some { zoneName := data.zoneName, id := int64OfUint64 resp.zoneId,
               zoneType := data.zoneType, token := resp.token } := by
  simp [zoneCreate]

/-- Helper: the zone model's tags match the zone schema's attributes exactly. -/
theorem planGetCompatible_zone :
    planGetCompatible zoneResourceModelTags zoneResourceSchemaAttrs = true := by
  decide

/-- Helper: the zone model's tags do not match the asset schema's attributes. -/
theorem planGetCompatible_asset :
    planGetCompatible zoneResourceModelTags assetResourceSchemaAttrs = false := by
  decide

/-- Claim C4, code bug in the asset path: the zone Update issues no remote
call and persists the plan's desired state unchanged, but the asset Update
reads its plan into the zone model type, whose tags cannot match the asset
schema, so its plan conversion fails on every invocation, the handler errors,
and nothing is ever persisted (still with no remote call). -/
theorem c4_update_divergence (data : ZoneResourceModel) :
    zoneUpdate data = ([], some data) ∧ assetUpdate data = ([], none) := by
  constructor
  · simp [zoneUpdate, planGetCompatible_zone]
  · simp [assetUpdate, planGetCompatible_asset]

/-- Claim C6: an Asset Create carries the planned zone_id verbatim in its
payload, and any successful response handling leaves the record's zone_id
equal to the planned value: the response is never used to transform it. -/
theorem c6_zone_id_passthrough :
    (∀ data : AssetResourceModel,
        (assetCreateRequest data).body
          = some [("asset_name", JsonVal.str data.assetName),
                  ("zone_id", JsonVal.num data.zoneId)])
    ∧ (∀ (data : AssetResourceModel) (status : Nat)
          (decoded : Option AssetCreateResponse) (res : AssetResourceModel),
        assetCreate data status decoded = some res → res.zoneId = data.zoneId) := by
  refine ⟨fun data => rfl, fun data status decoded res h => ?_⟩
  by_cases hs : status = 201
  · subst hs
    simp only [assetCreate, ne_eq, not_true_eq_false, if_false] at h
    cases h
    rfl
  · simp [assetCreate, hs] at h

/-- Witness for C6 at a concrete input: creating with zone_id 337 and a
successful empty-decode response keeps zone_id 337. -/
theorem c6_zone_id_passthrough_witness :
    (AssetResourceModel.mk "" 0 337).zoneId
      = (AssetResourceModel.mk "www" 0 337).zoneId :=
  c6_zone_id_passthrough.2 ⟨"www", 0, 337⟩ 201 none ⟨"", 0, 337⟩ (by decide)

/-- Claim C7: no outbound create payload contains the token field — the zone
create body is exactly zone_name then tenant_id, the asset create body never
mentions token — and the update operations send no request at all. -/
theorem c7_token_write_never (data : ZoneResourceModel)
    (adata : AssetResourceModel) :
    ((zoneCreateRequest data).body.getD []).map Prod.fst
      = ["zone_name", "tenant_id"]
    ∧ "token" ∉ ((zoneCreateRequest data).body.getD []).map Prod.fst
    ∧ "token" ∉ ((assetCreateRequest adata).body.getD []).map Prod.fst
    ∧ (zoneUpdate data).1 = [] ∧ (assetUpdate data).1 = [] := by
  refine ⟨rfl, ?_, ?_, ?_, ?_⟩
  · simp [zoneCreateRequest]
  · simp [assetCreateRequest]
  · simp [zoneUpdate, planGetCompatible_zone]
  · simp [assetUpdate, planGetCompatible_asset]

/-- Claim C8: Import parses the external identifier as a decimal integer and
seeds the state's id with it — "337" yields 337 — and a string that is not a
valid decimal integer silently yields identifier 0 with no error reported. -/
theorem c8_import_parse :
    zoneImportState "337" = 337 ∧ assetImportState "337" = 337
    ∧ (∀ s : String, goDecimalSyntax s = false →
        zoneImportState s = 0 ∧ assetImportState s = 0) := by
  refine ⟨by decide, by decide, fun s h => ?_⟩
  have h0 : goParseInt64 s = 0 := by
    simp only [goDecimalSyntax] at h
    simp [goParseInt64, h]
  exact ⟨h0, h0⟩

/-- Witness for C8 at a concrete input: the non-numeric identifier "abc"
imports as 0. -/
theorem c8_import_parse_witness :
    zoneImportState "abc" = 0 ∧ assetImportState "abc" = 0 :=
  c8_import_parse.2.2 "abc" (by decide)

/-- Claim C10: an Asset Create answered with HTTP 201 stores the response
body's asset_name, not the caller's desired value, and a response body that
fails to decode stores the empty string. -/
theorem c10_asset_create_name (data : AssetResourceModel)
    (resp : AssetCreateResponse) :
    (assetCreate data 201 (some resp)).map AssetResourceModel.assetName
      = some resp.assetName
    ∧ (assetCreate data 201 none).map AssetResourceModel.assetName
      = some "" := by
  constructor <;> simp [assetCreate]

end Panop
